import Mathlib

/-!
Shallow embedding of samples/mediapipe_picam/face_landmarker/raspberry_pi/detect.py.

The program is a capture / async-inference / render loop.  The shared mutable
state consists of the module globals COUNTER, FPS, START_TIME and
DETECTION_RESULT (detect.py lines 30-33), written only by the inference
completion callback save_result (lines 75-85) and read by the render section of
the while loop (lines 120-237).  Timestamps are modelled as rationals and the
inference result as a structure mirroring FaceLandmarkerResult as the script
uses it (face_landmarks and face_blendshapes).
-/

namespace Detect

/-- One normalized landmark as copied at detect.py lines 134-140 (fields x, y, z). -/
structure Landmark where
  x : Rat
  y : Rat
  z : Rat
  deriving DecidableEq

/-- One blendshape category as read at detect.py lines 203-205
(category_name and score). -/
structure Category where
  category_name : String
  score : Rat
  deriving DecidableEq

/-- The part of the mediapipe FaceLandmarkerResult the script uses:
face_landmarks (line 132) and face_blendshapes (line 200), one entry per
detected face. -/
structure FaceLandmarkerResult where
  face_landmarks : List (List Landmark)
  face_blendshapes : List (List Category)
  deriving DecidableEq

/-- The shared globals of detect.py lines 30-33: COUNTER, FPS, START_TIME,
DETECTION_RESULT. -/
structure SlotState where
  counter : Nat
  fps : Rat
  startTime : Rat
  detectionResult : Option FaceLandmarkerResult
  deriving DecidableEq

/-- fps_avg_frame_count = 10 (detect.py line 69). -/
def fps_avg_frame_count : Nat := 10

/-- The completion callback save_result (detect.py lines 75-85), taken as one
atomic update of the globals: if COUNTER mod fps_avg_frame_count == 0 then FPS
is recomputed from the elapsed time since START_TIME and START_TIME is reset
(lines 80-82); then DETECTION_RESULT is overwritten and COUNTER incremented
(lines 84-85).  The two time.time() calls of lines 81-82 are modelled as the
single completion instant now. -/
def save_result (result : FaceLandmarkerResult) (now : Rat) (s : SlotState) : SlotState :=
  let s1 :=
    if s.counter % fps_avg_frame_count == 0 then
      { s with fps := (fps_avg_frame_count : Rat) / (now - s.startTime), startTime := now }
    else s
  { s1 with detectionResult := some result, counter := s1.counter + 1 }

/-- Initial global state (detect.py lines 31-33): COUNTER = 0, FPS = 0,
START_TIME = program start time, DETECTION_RESULT = None. -/
def initState (t0 : Rat) : SlotState :=
  { counter := 0, fps := 0, startTime := t0, detectionResult := none }

/-- A sequence of completed inferences applied in order: each list entry is the
published result together with its completion time. -/
def publishSeq (ps : List (FaceLandmarkerResult × Rat)) (s : SlotState) : SlotState :=
  ps.foldl (fun st p => save_result p.1 p.2 st) s

/-- A result value with no detected faces, used as a concrete input. -/
def demoResult : FaceLandmarkerResult :=
  { face_landmarks := [], face_blendshapes := [] }

/-- Nine completions of demoResult at times 2, 3, ..., 10. -/
def tailNine : List (FaceLandmarkerResult × Rat) :=
  [(demoResult, 2), (demoResult, 3), (demoResult, 4), (demoResult, 5),
   (demoResult, 6), (demoResult, 7), (demoResult, 8), (demoResult, 9), (demoResult, 10)]

/-- Ten completions of demoResult at times 1, 2, ..., 10. -/
def tenPublishes : List (FaceLandmarkerResult × Rat) :=
  (demoResult, 1) :: tailNine

/-- Eleven completions of demoResult at times 1, 2, ..., 11. -/
def elevenPublishes : List (FaceLandmarkerResult × Rat) :=
  tenPublishes ++ [(demoResult, 11)]

theorem save_result_counter (r : FaceLandmarkerResult) (now : Rat) (s : SlotState) :
    (save_result r now s).counter = s.counter + 1 := by
  unfold save_result
  by_cases h : s.counter % fps_avg_frame_count == 0 <;> simp [h]

theorem save_result_no_recompute (r : FaceLandmarkerResult) (now : Rat) (s : SlotState)
    (h : s.counter % fps_avg_frame_count ≠ 0) :
    (save_result r now s).fps = s.fps ∧ (save_result r now s).startTime = s.startTime := by
  unfold save_result
  simp [h]

theorem save_result_recompute (r : FaceLandmarkerResult) (now : Rat) (s : SlotState)
    (h : s.counter % fps_avg_frame_count = 0) :
    (save_result r now s).fps = (fps_avg_frame_count : Rat) / (now - s.startTime) ∧
    (save_result r now s).startTime = now := by
  unfold save_result
  simp [h]

/-- Publishes whose pre-states all have counters strictly between multiples of
the window leave FPS and START_TIME untouched and add the list length to the
counter. -/
theorem publishSeq_no_recompute (ps : List (FaceLandmarkerResult × Rat)) (s : SlotState)
    (h1 : 1 ≤ s.counter % fps_avg_frame_count)
    (h2 : s.counter % fps_avg_frame_count + ps.length ≤ fps_avg_frame_count) :
    (publishSeq ps s).fps = s.fps ∧ (publishSeq ps s).startTime = s.startTime ∧
    (publishSeq ps s).counter = s.counter + ps.length := by
  induction ps generalizing s with
  | nil => simp [publishSeq]
  | cons p ps ih =>
    have hmod : s.counter % fps_avg_frame_count ≠ 0 := by omega
    have hstep := save_result_no_recompute p.1 p.2 s hmod
    have hcnt := save_result_counter p.1 p.2 s
    have hrw : publishSeq (p :: ps) s = publishSeq ps (save_result p.1 p.2 s) := rfl
    cases ps with
    | nil =>
      rw [hrw]
      simp only [publishSeq, List.foldl_nil, List.length_cons, List.length_nil]
      exact ⟨hstep.1, hstep.2, by rw [hcnt]⟩
    | cons q qs =>
      have h2n : s.counter % 10 + (qs.length + 2) ≤ 10 := by
        simpa [fps_avg_frame_count] using h2
      have hmod2 : (save_result p.1 p.2 s).counter % fps_avg_frame_count =
          s.counter % fps_avg_frame_count + 1 := by
        rw [hcnt]
        show (s.counter + 1) % 10 = s.counter % 10 + 1
        omega
      have h1p : 1 ≤ (save_result p.1 p.2 s).counter % fps_avg_frame_count := by
        rw [hmod2]; omega
      have h2p : (save_result p.1 p.2 s).counter % fps_avg_frame_count + (q :: qs).length ≤
          fps_avg_frame_count := by
        rw [hmod2]
        show s.counter % 10 + 1 + (q :: qs).length ≤ 10
        simp only [List.length_cons]
        omega
      obtain ⟨f1, f2, f3⟩ := ih (save_result p.1 p.2 s) h1p h2p
      rw [hrw]
      refine ⟨f1.trans hstep.1, f2.trans hstep.2, ?_⟩
      rw [f3, hcnt]
      simp only [List.length_cons]
      omega

/-- C3 (counterexample): the claim places the increment of COUNTER before the
window check, but detect.py line 80 tests COUNTER mod 10 == 0 BEFORE line 85
increments it.  Concretely, with the initial state (COUNTER = 0,
START_TIME = 0) and ten completions at times 1, 2, ..., 10: FPS after the 10th
publish is 10 (the value computed at the very first publish, 10 / (1 - 0)),
not 10 / (10 - 0) = 1 as the claim requires; and the 11th publish (time 11)
changes FPS to 10 / (11 - 1) = 1, so FPS is not left unchanged by publishes
11 through 19. -/
theorem C3_counterexample :
    (publishSeq tenPublishes (initState 0)).fps = 10 ∧
    (10 : Rat) ≠ 10 / ((10 : Rat) - 0) ∧
    (publishSeq elevenPublishes (initState 0)).fps = 1 ∧
    (publishSeq elevenPublishes (initState 0)).fps ≠
      (publishSeq tenPublishes (initState 0)).fps := by
  refine ⟨?_, ?_, ?_, ?_⟩ <;>
    norm_num [publishSeq, tenPublishes, elevenPublishes, tailNine, demoResult, save_result,
      initState, fps_avg_frame_count, List.foldl_cons, List.foldl_nil]

/-- C3 (amended): save_result checks COUNTER mod 10 == 0 before incrementing
COUNTER, so FPS is recomputed on publishes 1, 11, 21, ...  Starting from a
fresh state with counter 0: the 1st publish, at time t0, sets
fps = 10 / (t0 - windowStart) and resets windowStart = t0; publishes 2..10
leave fps and windowStart unchanged, so fps immediately after the 10th publish
still equals the value computed at the 1st publish; and the 11th publish, at
time t', recomputes fps = 10 / (t' - t0). -/
theorem C3_fps_window (t0 : Rat) (ps : List (FaceLandmarkerResult × Rat))
    (r0 rx : FaceLandmarkerResult) (tx : Rat) (s0 : SlotState)
    (h0 : s0.counter = 0) (hlen : ps.length ≤ 9) :
    (publishSeq ((r0, t0) :: ps) s0).fps = 10 / (t0 - s0.startTime) ∧
    (publishSeq ((r0, t0) :: ps) s0).startTime = t0 ∧
    (ps.length = 9 →
      (save_result rx tx (publishSeq ((r0, t0) :: ps) s0)).fps = 10 / (tx - t0)) := by
  have hmod0 : s0.counter % fps_avg_frame_count = 0 := by
    rw [h0]
    exact Nat.zero_mod _
  have hfst := save_result_recompute r0 t0 s0 hmod0
  have hcnt := save_result_counter r0 t0 s0
  have hrw : publishSeq ((r0, t0) :: ps) s0 = publishSeq ps (save_result r0 t0 s0) := rfl
  have hten : ((fps_avg_frame_count : Nat) : Rat) = (10 : Rat) := by
    norm_num [fps_avg_frame_count]
  by_cases hne : ps = []
  · subst hne
    refine ⟨?_, ?_, ?_⟩
    · rw [hrw]
      simp only [publishSeq, List.foldl_nil]
      rw [hfst.1, hten]
    · rw [hrw]
      simp only [publishSeq, List.foldl_nil]
      exact hfst.2
    · intro hlen9
      simp at hlen9
  · have h1 : 1 ≤ (save_result r0 t0 s0).counter % fps_avg_frame_count := by
      rw [hcnt, h0]
      show 1 ≤ (0 + 1) % 10
      omega
    have h2 : (save_result r0 t0 s0).counter % fps_avg_frame_count + ps.length ≤
        fps_avg_frame_count := by
      rw [hcnt, h0]
      show 1 % 10 + ps.length ≤ 10
      omega
    obtain ⟨f1, f2, f3⟩ := publishSeq_no_recompute ps (save_result r0 t0 s0) h1 h2
    refine ⟨?_, ?_, ?_⟩
    · rw [hrw, f1, hfst.1, hten]
    · rw [hrw, f2, hfst.2]
    · intro hlen9
      have hc10 : (publishSeq ((r0, t0) :: ps) s0).counter = 10 := by
        rw [hrw, f3, hcnt, h0, hlen9]
      have hmod10 : (publishSeq ((r0, t0) :: ps) s0).counter % fps_avg_frame_count = 0 := by
        rw [hc10]
        show 10 % 10 = 0
        omega
      have hst : (publishSeq ((r0, t0) :: ps) s0).startTime = t0 := by
        rw [hrw, f2, hfst.2]
      have := save_result_recompute rx tx (publishSeq ((r0, t0) :: ps) s0) hmod10
      rw [this.1, hst, hten]

/-- C3 (witness): the amended window behaviour evaluated on a concrete run of
eleven completions at times 1, 2, ..., 10 and then 11, from the initial
state. -/
theorem C3_fps_window_witness :
    (publishSeq ((demoResult, 1) :: tailNine) (initState 0)).fps =
      10 / ((1 : Rat) - (initState 0).startTime) ∧
    (publishSeq ((demoResult, 1) :: tailNine) (initState 0)).startTime = 1 ∧
    (save_result demoResult 11 (publishSeq ((demoResult, 1) :: tailNine) (initState 0))).fps =
      10 / ((11 : Rat) - 1) := by
  have h := C3_fps_window 1 tailNine demoResult demoResult 11 (initState 0) rfl (by decide)
  exact ⟨h.1, h.2.1, h.2.2 (by decide)⟩

/-- One atomic sub-step of save_result at the granularity of its Python
statements (detect.py lines 80-85): sub-step 0 writes FPS (line 81), sub-step 1
resets START_TIME (line 82), both guarded by COUNTER mod 10 == 0 (line 80);
sub-step 2 overwrites DETECTION_RESULT (line 84); sub-step 3 increments COUNTER
(line 85).  COUNTER is written only by the last sub-step, so re-evaluating the
line-80 guard at sub-steps 0 and 1 agrees with the Python code, which evaluates
it once before either write. -/
def writerSubStep (r : FaceLandmarkerResult) (now : Rat) (s : SlotState) : Nat → SlotState
  | 0 => if s.counter % fps_avg_frame_count == 0 then
           { s with fps := (fps_avg_frame_count : Rat) / (now - s.startTime) }
         else s
  | 1 => if s.counter % fps_avg_frame_count == 0 then { s with startTime := now } else s
  | 2 => { s with detectionResult := some r }
  | _ => { s with counter := s.counter + 1 }

/-- The globals after the first k atomic sub-steps of one save_result call.
The callback runs concurrently with the while loop, with no lock anywhere in
detect.py, so the loop can observe any k between 0 and 4. -/
def writerAfter (r : FaceLandmarkerResult) (now : Rat) (s : SlotState) (k : Nat) : SlotState :=
  (List.range k).foldl (writerSubStep r now) s

/-- Running all four sub-steps is exactly one save_result call. -/
theorem writerAfter_four (r : FaceLandmarkerResult) (now : Rat) (s : SlotState) :
    writerAfter r now s 4 = save_result r now s := by
  unfold writerAfter save_result
  by_cases h : s.counter % fps_avg_frame_count == 0 <;>
    simp [List.range_succ, writerSubStep, h]

theorem save_result_detectionResult (r : FaceLandmarkerResult) (now : Rat) (s : SlotState) :
    (save_result r now s).detectionResult = some r := by
  unfold save_result
  by_cases h : s.counter % fps_avg_frame_count == 0 <;> simp [h]

theorem writerAfter_fps_new (r : FaceLandmarkerResult) (now : Rat) (s : SlotState)
    (k : Nat) (h1 : 1 ≤ k) (h2 : k ≤ 4) :
    (writerAfter r now s k).fps = (save_result r now s).fps := by
  interval_cases k <;>
    (unfold writerAfter save_result
     by_cases h : s.counter % fps_avg_frame_count == 0 <;>
       simp [List.range_succ, writerSubStep, h])

theorem writerAfter_dr_old (r : FaceLandmarkerResult) (now : Rat) (s : SlotState)
    (k : Nat) (h2 : k ≤ 2) :
    (writerAfter r now s k).detectionResult = s.detectionResult := by
  interval_cases k <;>
    (unfold writerAfter
     by_cases h : s.counter % fps_avg_frame_count == 0 <;>
       simp [List.range_succ, writerSubStep, h])

theorem writerAfter_dr_new (r : FaceLandmarkerResult) (now : Rat) (s : SlotState)
    (k : Nat) (h1 : 3 ≤ k) (h2 : k ≤ 4) :
    (writerAfter r now s k).detectionResult = some r := by
  interval_cases k <;>
    (unfold writerAfter
     by_cases h : s.counter % fps_avg_frame_count == 0 <;>
       simp [List.range_succ, writerSubStep, h])

/-- The pair the render loop assembles when its read of FPS (detect.py
line 121) happens after i writer sub-steps and its later read of
DETECTION_RESULT (line 130) happens after j writer sub-steps of one concurrent
save_result call.  The loop reads FPS first, so i ≤ j; a complete publish is 4
sub-steps. -/
def readerPair (r : FaceLandmarkerResult) (now : Rat) (s : SlotState) (i j : Nat) :
    Option FaceLandmarkerResult × Rat :=
  ((writerAfter r now s j).detectionResult, (writerAfter r now s i).fps)

/-- C2 (counterexample): there is no synchronization between save_result and
the loop reads of FPS and DETECTION_RESULT, so the pair can be torn.
Concretely, from the initial state with one publish of demoResult at time 1:
if the loop reads FPS before any writer sub-step (i = 0) and DETECTION_RESULT
after the publish finished (j = 4), it obtains (some demoResult, 0), which is
neither the pre-publish pair (none, 0) nor the post-publish pair
(some demoResult, 10) - a newer latest with an older fps. -/
theorem C2_counterexample :
    (0 : Nat) ≤ 4 ∧ (4 : Nat) ≤ 4 ∧
    readerPair demoResult 1 (initState 0) 0 4 ≠
      ((initState 0).detectionResult, (initState 0).fps) ∧
    readerPair demoResult 1 (initState 0) 0 4 ≠
      ((save_result demoResult 1 (initState 0)).detectionResult,
        (save_result demoResult 1 (initState 0)).fps) := by
  refine ⟨by norm_num, by norm_num, ?_, ?_⟩
  · norm_num [readerPair, writerAfter, writerSubStep, save_result, initState, demoResult,
      fps_avg_frame_count, List.range_succ, Prod.ext_iff]
    exact Option.some_ne_none _
  · norm_num [readerPair, writerAfter, writerSubStep, save_result, initState, demoResult,
      fps_avg_frame_count, List.range_succ, Prod.ext_iff]

/-- C2 (amended): snapshot atomicity fails (see the counterexample), but each
field on its own is read atomically: whatever the interleaving of the two loop
reads with the four sub-steps of one concurrent save_result call, the fps the
loop obtains is either the pre-publish or the post-publish FPS, and the latest
result it obtains is either the pre-publish or the post-publish
DETECTION_RESULT; only the pairing can mix the two publishes. -/
theorem C2_snapshot_fields (r : FaceLandmarkerResult) (now : Rat) (s : SlotState)
    (i j : Nat) (hij : i ≤ j) (hj : j ≤ 4) :
    ((readerPair r now s i j).2 = s.fps ∨
      (readerPair r now s i j).2 = (save_result r now s).fps) ∧
    ((readerPair r now s i j).1 = s.detectionResult ∨
      (readerPair r now s i j).1 = (save_result r now s).detectionResult) := by
  constructor
  · rcases Nat.eq_zero_or_pos i with hi | hi
    · subst hi
      exact Or.inl rfl
    · exact Or.inr (writerAfter_fps_new r now s i hi (le_trans hij hj))
  · rcases Nat.lt_or_ge j 3 with hj3 | hj3
    · exact Or.inl (writerAfter_dr_old r now s j (by omega))
    · refine Or.inr ?_
      rw [save_result_detectionResult]
      exact writerAfter_dr_new r now s j hj3 hj

/-- C2 (witness): the per-field theorem applied to the concrete interleaving
in which both reads happen after two writer sub-steps. -/
theorem C2_snapshot_fields_witness :
    ((readerPair demoResult 1 (initState 0) 2 2).2 = (initState 0).fps ∨
      (readerPair demoResult 1 (initState 0) 2 2).2 =
        (save_result demoResult 1 (initState 0)).fps) ∧
    ((readerPair demoResult 1 (initState 0) 2 2).1 = (initState 0).detectionResult ∨
      (readerPair demoResult 1 (initState 0) 2 2).1 =
        (save_result demoResult 1 (initState 0)).detectionResult) :=
  C2_snapshot_fields demoResult 1 (initState 0) 2 2 (by norm_num) (by norm_num)

/-- A transition of the shared slot state: the only writer of the globals is
save_result, registered as the result_callback at detect.py line 97 and invoked
once per completed inference; the while loop only reads the globals and never
writes them, and nothing in the program resets COUNTER. -/
inductive SlotStep : SlotState → SlotState → Prop
  | publish (r : FaceLandmarkerResult) (now : Rat) (s : SlotState) :
      SlotStep s (save_result r now s)

/-- C8: the shared result counter is non-decreasing over the pipeline lifetime;
a single publish increments COUNTER by exactly one, and over any sequence of
slot transitions the counter never decreases. -/
theorem C8_counter_monotonic (s sf : SlotState) :
    (SlotStep s sf → sf.counter = s.counter + 1) ∧
    (Relation.ReflTransGen SlotStep s sf → s.counter ≤ sf.counter) := by
  constructor
  · intro hstep
    cases hstep with
    | publish r now => exact save_result_counter r now s
  · intro h
    induction h with
    | refl => exact le_refl _
    | tail hab hbc ih =>
      rename_i b c
      cases hbc with
      | publish r now =>
        have := save_result_counter r now b
        omega

/-- C8 (witness): the monotonicity theorem applied to the concrete one-publish
trace from the initial state. -/
theorem C8_counter_monotonic_witness :
    (save_result demoResult 1 (initState 0)).counter = (initState 0).counter + 1 ∧
    (initState 0).counter ≤ (save_result demoResult 1 (initState 0)).counter :=
  ⟨(C8_counter_monotonic (initState 0) (save_result demoResult 1 (initState 0))).1
      (SlotStep.publish demoResult 1 (initState 0)),
   (C8_counter_monotonic (initState 0) (save_result demoResult 1 (initState 0))).2
      (Relation.ReflTransGen.single (SlotStep.publish demoResult 1 (initState 0)))⟩

/-- Modelled from the spec: the drop-on-busy asynchronous inference stage.
The repository code only calls detector.detect_async once per loop iteration
(detect.py line 117); the stage internals (mediapipe live-stream mode) are not
under src/, so the AsyncInferenceStage contract is taken from the spec: submit
accepts the frame when no inference is outstanding and otherwise drops it
without queueing; a completion publishes into the shared slot via save_result
and frees the stage. -/
structure StageState where
  inFlight : Nat
  droppedCount : Nat
  slot : SlotState
  deriving DecidableEq

/-- Modelled from the spec: submit marks the stage busy when it is free and
drops the submission (no queueing, no slot change) when an inference is
already outstanding. -/
def submit (st : StageState) : StageState :=
  if st.inFlight == 0 then { st with inFlight := 1 }
  else { st with droppedCount := st.droppedCount + 1 }

/-- Modelled from the spec: a completion publishes its result into the shared
slot (the save_result callback of detect.py lines 75-85) and frees the
stage. -/
def complete (r : FaceLandmarkerResult) (now : Rat) (st : StageState) : StageState :=
  { st with inFlight := st.inFlight - 1, slot := save_result r now st.slot }

/-- The stage before the first loop iteration: nothing in flight, nothing
dropped, globals in their initial state. -/
def initStage (t0 : Rat) : StageState :=
  { inFlight := 0, droppedCount := 0, slot := initState t0 }

/-- Interleaved execution of the capture loop and the completion callback: at
any point the loop may call submit (one call per iteration, detect.py
line 117), or an outstanding inference may complete and publish. -/
inductive PipeStep : StageState → StageState → Prop
  | submit (st : StageState) : PipeStep st (submit st)
  | complete (r : FaceLandmarkerResult) (now : Rat) (st : StageState)
      (h : 1 ≤ st.inFlight) : PipeStep st (complete r now st)

/-- States reachable by the loop/callback step relation from the start of the
pipeline. -/
def PipeReachable (t0 : Rat) (st : StageState) : Prop :=
  Relation.ReflTransGen PipeStep (initStage t0) st

/-- C1: at most one inference is ever in flight.  In every reachable state of
the loop/callback step relation the number of outstanding inferences is at
most one, and a submit issued while one is outstanding is dropped: it leaves
the outstanding count and the shared slot unchanged and only bumps the dropped
counter, so it is rejected without queueing. -/
theorem C1_at_most_one_in_flight (t0 : Rat) (st : StageState)
    (h : PipeReachable t0 st) :
    st.inFlight ≤ 1 ∧
    (1 ≤ st.inFlight →
      (submit st).inFlight = st.inFlight ∧ (submit st).slot = st.slot ∧
      (submit st).droppedCount = st.droppedCount + 1) := by
  have hb : st.inFlight ≤ 1 := by
    induction h with
    | refl => exact Nat.zero_le _
    | tail hab hbc ih =>
      rename_i b c
      cases hbc with
      | submit =>
        by_cases hz : b.inFlight = 0
        · simp [submit, hz]
        · simpa [submit, hz] using ih
      | complete r now hfl =>
        simp only [complete]
        omega
  refine ⟨hb, fun hfl => ?_⟩
  have hnz : (st.inFlight == 0) = false := by
    simp only [beq_eq_false_iff_ne, ne_eq]
    omega
  unfold submit
  rw [hnz]
  simp

/-- C1 (witness): the invariant evaluated on the concrete reachable state in
which one submission has been accepted and a second submit would arrive. -/
theorem C1_at_most_one_in_flight_witness :
    (submit (initStage 0)).inFlight ≤ 1 ∧
    (1 ≤ (submit (initStage 0)).inFlight →
      (submit (submit (initStage 0))).inFlight = (submit (initStage 0)).inFlight ∧
      (submit (submit (initStage 0))).slot = (submit (initStage 0)).slot ∧
      (submit (submit (initStage 0))).droppedCount =
        (submit (initStage 0)).droppedCount + 1) :=
  C1_at_most_one_in_flight 0 (submit (initStage 0))
    (Relation.ReflTransGen.single (PipeStep.submit (initStage 0)))

/-- The two pixel buffers alive during the render section: the flipped
captured frame (current_frame up to detect.py line 163, which by line 123
aliases the frame captured this iteration) and the expanded frame returned by
cv2.copyMakeBorder (line 164 onwards).  Drawing on the captured buffer mutates
the input frame in place. -/
inductive Buffer
  | captured
  | expanded
  deriving DecidableEq

/-- The three landmark connection sets drawn per face (detect.py lines
141-161): FACEMESH_TESSELATION, FACEMESH_CONTOURS, FACEMESH_IRISES. -/
inductive ConnKind
  | tesselation
  | contours
  | irises
  deriving DecidableEq

/-- label_padding_width = 1500 (detect.py line 73). -/
def label_padding_width : Nat := 1500

/-- bar_height = 16 (detect.py line 196). -/
def bar_height : Nat := 16

/-- gap_between_bars = 10 (detect.py line 197). -/
def gap_between_bars : Nat := 10

/-- One drawing operation issued by the render section of the loop: the FPS
text (detect.py line 124), a draw_landmarks call for one face (lines 141-161),
the copyMakeBorder panel expansion (line 164), one of the two title texts
(lines 174-189), or a blendshape category text (line 214) or score bar
(line 227) at vertical position y. -/
inductive RenderOp
  | fpsText (target : Buffer) (fps : Rat)
  | drawLandmarks (target : Buffer) (face : List Landmark) (conn : ConnKind)
  | border (target : Buffer) (padRight : Nat)
  | titleText (target : Buffer) (which : Nat)
  | categoryText (target : Buffer) (c : Category) (y : Nat)
  | categoryBar (target : Buffer) (c : Category) (y : Nat)
  deriving DecidableEq

/-- Whether executing the operation writes into the frame captured by the
loop: cv2.putText, draw_landmarks and cv2.rectangle draw in place into their
image argument, which before detect.py line 164 is the captured frame itself;
cv2.copyMakeBorder allocates a fresh buffer and leaves its source intact. -/
def RenderOp.mutatesInput : RenderOp → Bool
  | .fpsText t _ => t == Buffer.captured
  | .drawLandmarks t _ _ => t == Buffer.captured
  | .border _ _ => false
  | .titleText t _ => t == Buffer.captured
  | .categoryText t _ _ => t == Buffer.captured
  | .categoryBar t _ _ => t == Buffer.captured

def RenderOp.isLandmark : RenderOp → Bool
  | .drawLandmarks _ _ _ => true
  | _ => false

def RenderOp.isPanelRow : RenderOp → Bool
  | .categoryText _ _ _ => true
  | .categoryBar _ _ _ => true
  | _ => false

/-- The landmark drawing of detect.py lines 131-161: for every face in
DETECTION_RESULT.face_landmarks, three draw_landmarks calls on current_frame,
which at that point still aliases the captured frame. -/
def landmarkOps (res : FaceLandmarkerResult) : List RenderOp :=
  res.face_landmarks.flatMap (fun fl =>
    [RenderOp.drawLandmarks Buffer.captured fl ConnKind.tesselation,
     RenderOp.drawLandmarks Buffer.captured fl ConnKind.contours,
     RenderOp.drawLandmarks Buffer.captured fl ConnKind.irises])

/-- The blendshape panel loop of detect.py lines 203-235 over the categories
of face_blendshapes[0]: each iteration draws the category text and its score
bar at the running legend_y, then advances legend_y by
bar_height + gap_between_bars (line 235). -/
def panelRowsAux (y : Nat) : List Category → List RenderOp
  | [] => []
  | c :: cs =>
    RenderOp.categoryText Buffer.expanded c y ::
    RenderOp.categoryBar Buffer.expanded c y ::
    panelRowsAux (y + (bar_height + gap_between_bars)) cs

/-- The guarded panel body of detect.py lines 191-235: when face_blendshapes
is empty (line 202 falsy) nothing is drawn; otherwise the category rows of its
first entry, face_blendshapes[0] (line 203), starting at legend_y = 300
(line 194).  Faces other than the first contribute nothing. -/
def panelOps (res : FaceLandmarkerResult) : List RenderOp :=
  match res.face_blendshapes with
  | [] => []
  | b0 :: _ => panelRowsAux 300 b0

/-- The render section of one loop iteration (detect.py lines 120-237) as the
sequence of drawing operations it issues, as a function of the FPS and
DETECTION_RESULT values it reads: the FPS text drawn on the captured frame
(line 124); if DETECTION_RESULT is truthy, the landmark drawing (lines
130-161); the unconditional copyMakeBorder expansion by label_padding_width
white pixels and the two title texts (lines 163-189); and, again only if
DETECTION_RESULT is truthy, the blendshape panel (lines 191-235). -/
def render (fps : Rat) (res : Option FaceLandmarkerResult) : List RenderOp :=
  [RenderOp.fpsText Buffer.captured fps]
    ++ (match res with
        | none => []
        | some r => landmarkOps r)
    ++ [RenderOp.border Buffer.expanded label_padding_width,
        RenderOp.titleText Buffer.expanded 1,
        RenderOp.titleText Buffer.expanded 2]
    ++ (match res with
        | none => []
        | some r => panelOps r)

/-- The categories whose name, score and bar the render draws, in order. -/
def drawnCategories (ops : List RenderOp) : List Category :=
  ops.filterMap (fun op => match op with
    | RenderOp.categoryText _ c _ => some c
    | _ => none)

theorem landmarkOps_filter_mutates (res : FaceLandmarkerResult) :
    (landmarkOps res).filter RenderOp.mutatesInput = landmarkOps res := by
  unfold landmarkOps
  induction res.face_landmarks with
  | nil => rfl
  | cons fl fls ih =>
    simp only [List.flatMap_cons, List.filter_append, ih]
    rfl

theorem panelRowsAux_filter_mutates (cs : List Category) (y : Nat) :
    (panelRowsAux y cs).filter RenderOp.mutatesInput = [] := by
  induction cs generalizing y with
  | nil => rfl
  | cons c cs ih => simp [panelRowsAux, RenderOp.mutatesInput, ih]

theorem panelOps_filter_mutates (res : FaceLandmarkerResult) :
    (panelOps res).filter RenderOp.mutatesInput = [] := by
  unfold panelOps
  cases res.face_blendshapes with
  | nil => rfl
  | cons b0 rest => exact panelRowsAux_filter_mutates b0 300

/-- C4 (counterexample): the claim requires that with no cached result the
output is only the base frame plus the FPS text, with no side panel of any
kind; but the copyMakeBorder expansion by 1500 white pixels and the two title
texts (detect.py lines 163-189) sit outside the `if DETECTION_RESULT` guard
and are drawn on every frame.  Concretely at fps = 0 and latest = none, the
render issues the border and both titles. -/
theorem C4_counterexample :
    render 0 none ≠ [RenderOp.fpsText Buffer.captured 0] ∧
    RenderOp.border Buffer.expanded label_padding_width ∈ render 0 none ∧
    RenderOp.titleText Buffer.expanded 1 ∈ render 0 none ∧
    RenderOp.titleText Buffer.expanded 2 ∈ render 0 none := by
  refine ⟨?_, ?_, ?_, ?_⟩ <;> simp [render]

/-- C4 (amended): when the snapshot's latest result is absent the render
issues exactly the FPS text on the base frame, the unconditional white
side-panel expansion, and the two title captions - and in particular no
landmark drawing and no blendshape category row or bar. -/
theorem C4_render_no_result (fps : Rat) :
    render fps none =
      [RenderOp.fpsText Buffer.captured fps,
       RenderOp.border Buffer.expanded label_padding_width,
       RenderOp.titleText Buffer.expanded 1,
       RenderOp.titleText Buffer.expanded 2] ∧
    (render fps none).filter RenderOp.isLandmark = [] ∧
    (render fps none).filter RenderOp.isPanelRow = [] :=
  ⟨rfl, rfl, rfl⟩

/-- C5 (counterexample): render is not pure in its frame argument: at
detect.py line 123 current_frame aliases the captured frame, and the
cv2.putText of line 124 draws the FPS text into it in place.  Concretely at
fps = 0 and latest = none, the render issues an operation that writes into the
input frame. -/
theorem C5_counterexample :
    RenderOp.fpsText Buffer.captured 0 ∈ render 0 none ∧
    (RenderOp.fpsText Buffer.captured 0).mutatesInput = true := by
  constructor
  · simp [render]
  · rfl

/-- C5 (amended): the operation sequence render issues is a deterministic
function of the frame and the (fps, latest) values it reads, but render is not
pure: it always mutates its input frame in place, and the in-place writes are
exactly the FPS text and the per-face landmark drawing; the border, titles and
panel go to the freshly allocated expanded buffer. -/
theorem C5_render_mutates_input (fps : Rat) (res : Option FaceLandmarkerResult) :
    (render fps res).filter RenderOp.mutatesInput =
      RenderOp.fpsText Buffer.captured fps ::
        (match res with
         | none => []
         | some r => landmarkOps r) ∧
    (render fps res).filter RenderOp.mutatesInput ≠ [] := by
  have hmain : (render fps res).filter RenderOp.mutatesInput =
      RenderOp.fpsText Buffer.captured fps ::
        (match res with
         | none => []
         | some r => landmarkOps r) := by
    cases res with
    | none => rfl
    | some r =>
      unfold render
      simp only [List.filter_append, landmarkOps_filter_mutates, panelOps_filter_mutates]
      simp [RenderOp.mutatesInput]
  exact ⟨hmain, by rw [hmain]; exact List.cons_ne_nil _ _⟩

theorem drawnCategories_landmarkOps (res : FaceLandmarkerResult) :
    drawnCategories (landmarkOps res) = [] := by
  unfold drawnCategories landmarkOps
  induction res.face_landmarks with
  | nil => rfl
  | cons fl fls ih => simpa [List.flatMap_cons, List.filterMap_append] using ih

theorem drawnCategories_panelRowsAux (cs : List Category) (y : Nat) :
    drawnCategories (panelRowsAux y cs) = cs := by
  induction cs generalizing y with
  | nil => rfl
  | cons c cs ih =>
    have hih := ih (y + (bar_height + gap_between_bars))
    unfold drawnCategories at hih ⊢
    simp only [panelRowsAux, List.filterMap_cons, hih]

/-- C10: when the cached result holds blendshape categories for several
detected faces, the side panel draws the category texts and bars of the first
face only: the categories drawn are exactly those of face_blendshapes[0], in
order, and the categories of every other face never appear. -/
theorem C10_first_face_only (fps : Rat) (res : FaceLandmarkerResult)
    (b0 : List Category) (rest : List (List Category))
    (hb : res.face_blendshapes = b0 :: rest) :
    drawnCategories (render fps (some res)) = b0 := by
  unfold render drawnCategories
  simp only [List.filterMap_append]
  have h1 : (landmarkOps res).filterMap (fun op => match op with
      | RenderOp.categoryText _ c _ => some c
      | _ => none) = [] := drawnCategories_landmarkOps res
  have h2 : (panelOps res).filterMap (fun op => match op with
      | RenderOp.categoryText _ c _ => some c
      | _ => none) = b0 := by
    unfold panelOps
    rw [hb]
    exact drawnCategories_panelRowsAux b0 300
  rw [h1, h2]
  rfl

/-- A concrete result with blendshape categories for two detected faces. -/
def twoFaceResult : FaceLandmarkerResult :=
  { face_landmarks := [],
    face_blendshapes :=
      [[{ category_name := "browDownLeft", score := 3 / 4 }],
       [{ category_name := "jawOpen", score := 1 / 2 }]] }

/-- C10 (witness): with two faces detected, the panel draws exactly the single
category of the first face; the second face's jawOpen category never
appears. -/
theorem C10_first_face_only_witness :
    drawnCategories (render 0 (some twoFaceResult)) =
      [{ category_name := "browDownLeft", score := 3 / 4 }] :=
  C10_first_face_only 0 twoFaceResult
    [{ category_name := "browDownLeft", score := 3 / 4 }]
    [[{ category_name := "jawOpen", score := 1 / 2 }]] rfl

/-- A pixel as the (blue, green, red) channel triple of the captured RGB888
buffer (detect.py line 58). -/
structure Pixel where
  b : Nat
  g : Nat
  r : Nat
  deriving DecidableEq

/-- A frame as its rows of pixels. -/
abbrev Image : Type := List (List Pixel)

/-- cv2.flip(frame, 1) (detect.py line 110): horizontal flip about the
vertical axis, reversing every row. -/
def cvFlipH (img : Image) : Image := img.map List.reverse

/-- cv2.cvtColor(frame, cv2.COLOR_BGR2RGB) (detect.py line 113): per-pixel
channel swap. -/
def bgr2rgb (img : Image) : Image :=
  img.map (List.map (fun p => { b := p.r, g := p.g, r := p.b : Pixel }))

/-- The two frames of one loop iteration derived from the captured array
(detect.py lines 109-123): the flipped frame converted to RGB is wrapped in
the mp.Image submitted to detect_async (lines 113-117), and the flipped frame
itself becomes current_frame, the base the render draws on and displays
(line 123). -/
structure IterFrames where
  submitted : Image
  displayBase : Image
  deriving DecidableEq

def loopFrames (captured : Image) : IterFrames :=
  { submitted := bgr2rgb (cvFlipH captured), displayBase := cvFlipH captured }

/-- C9: the captured frame is horizontally mirrored immediately after capture,
and both the inference input and the display base derive from the mirrored
frame: re-reversing each display row recovers the captured image exactly, the
submitted image is the channel-swapped display base, and pixel (y, x) of the
display base equals pixel (y, w - 1 - x) of the captured frame; no un-mirrored
frame is inferred or shown. -/
theorem C9_mirrored (captured : Image) :
    ((loopFrames captured).displayBase).map List.reverse = captured ∧
    (loopFrames captured).submitted = bgr2rgb ((loopFrames captured).displayBase) ∧
    ∀ (y x : Nat), y < captured.length →
      x < (captured.getD y []).length →
      ((loopFrames captured).displayBase.getD y []).getD x { b := 0, g := 0, r := 0 } =
        (captured.getD y []).getD ((captured.getD y []).length - 1 - x)
          { b := 0, g := 0, r := 0 } := by
  refine ⟨?_, rfl, ?_⟩
  · show ((captured.map List.reverse).map List.reverse) = captured
    rw [List.map_map]
    simp [Function.comp]
  · intro y x hy hx
    show ((captured.map List.reverse).getD y []).getD x _ = _
    have hy2 : y < (captured.map List.reverse).length := by simpa using hy
    rw [List.getD_eq_getElem _ _ hy2, List.getElem_map, List.getD_eq_getElem _ _ hy]
    rw [List.getD_eq_getElem _ _ hy] at hx
    have hx2 : x < (captured[y]).reverse.length := by simpa using hx
    have hx3 : (captured[y]).length - 1 - x < (captured[y]).length := by omega
    rw [List.getD_eq_getElem _ _ hx2, List.getD_eq_getElem _ _ hx3]
    exact List.getElem_reverse hx2

/-- C9 (witness): the mirroring theorem evaluated on a concrete one-row,
two-pixel frame: the display base at (0, 0) is the captured pixel at
(0, 1). -/
theorem C9_mirrored_witness :
    ((loopFrames [[{ b := 1, g := 2, r := 3 }, { b := 4, g := 5, r := 6 }]]).displayBase).map
        List.reverse = [[{ b := 1, g := 2, r := 3 }, { b := 4, g := 5, r := 6 }]] ∧
    ((loopFrames [[{ b := 1, g := 2, r := 3 }, { b := 4, g := 5, r := 6 }]]).displayBase.getD 0
        []).getD 0 { b := 0, g := 0, r := 0 } =
      (([[{ b := 1, g := 2, r := 3 }, { b := 4, g := 5, r := 6 }]] : Image).getD 0 []).getD
        ((([[{ b := 1, g := 2, r := 3 }, { b := 4, g := 5, r := 6 }]] : Image).getD 0 []).length
          - 1 - 0) { b := 0, g := 0, r := 0 } := by
  have h := C9_mirrored [[{ b := 1, g := 2, r := 3 }, { b := 4, g := 5, r := 6 }]]
  exact ⟨h.1, h.2.2 0 0 (by decide) (by decide)⟩

/-- The numeric startup configuration forwarded by main to run (detect.py
lines 290-292). -/
structure RunArgs where
  numFaces : Int
  minFaceDetectionConfidence : Rat
  minFacePresenceConfidence : Rat
  minTrackingConfidence : Rat
  frameWidth : Int
  frameHeight : Int
  deriving DecidableEq

/-- An observable startup action of run (detect.py lines 54-98): opening and
starting the camera, creating the detector from the forwarded options, or
failing with a configuration error - an action the code never performs, since
neither main nor run compares any argument against a documented range. -/
inductive StartupEvent
  | configError
  | cameraOpen (w h : Int)
  | detectorCreate (numFaces : Int) (dconf pconf tconf : Rat)
  deriving DecidableEq

/-- The startup sequence of run (detect.py lines 54-98): the Picamera2 is
configured with the requested (width, height) and started first (lines 56-61);
only afterwards are the FaceLandmarkerOptions assembled from the unvalidated
arguments and the landmarker created (lines 88-98). -/
def runStartup (a : RunArgs) : List StartupEvent :=
  [StartupEvent.cameraOpen a.frameWidth a.frameHeight,
   StartupEvent.detectorCreate a.numFaces a.minFaceDetectionConfidence
     a.minFacePresenceConfidence a.minTrackingConfidence]

/-- A configuration whose detection confidence 2 is outside the documented
range of confidence scores, the interval from 0 to 1. -/
def badArgs : RunArgs :=
  { numFaces := 2, minFaceDetectionConfidence := 2, minFacePresenceConfidence := 1 / 2,
    minTrackingConfidence := 1 / 2, frameWidth := 1280, frameHeight := 1706 }

/-- C6 (counterexample): with an out-of-range detection confidence of 2 the
program does not fail fast: the very first startup action acquires the camera,
and no configuration error is ever raised before (or after) it. -/
theorem C6_counterexample :
    ¬ (badArgs.minFaceDetectionConfidence ≤ 1) ∧
    (runStartup badArgs).head? = some (StartupEvent.cameraOpen 1280 1706) ∧
    StartupEvent.configError ∉ runStartup badArgs := by
  refine ⟨by norm_num [badArgs], rfl, by simp [runStartup, badArgs]⟩

/-- C6 (amended): startup performs no range validation at all: for every
configuration, in range or not, the first startup action opens the camera with
the requested dimensions, no configuration error is ever emitted, and the
arguments are forwarded unvalidated to the detector creation that only happens
after the camera has been acquired. -/
theorem C6_no_validation (a : RunArgs) :
    (runStartup a).head? = some (StartupEvent.cameraOpen a.frameWidth a.frameHeight) ∧
    StartupEvent.configError ∉ runStartup a ∧
    (runStartup a).getD 1 StartupEvent.configError =
      StartupEvent.detectorCreate a.numFaces a.minFaceDetectionConfidence
        a.minFacePresenceConfidence a.minTrackingConfidence := by
  refine ⟨rfl, ?_, rfl⟩
  simp [runStartup]

/-- Outcome of picam2.capture_array() at detect.py line 109: a frame, or a
transient capture failure raising an exception. -/
inductive CaptureOutcome
  | ok (img : Image)
  | err
  deriving DecidableEq

/-- Result of executing the body of the while loop (detect.py lines 107-241)
once under a given capture outcome: either the loop reaches the next iteration
having submitted a frame, or it terminates. -/
inductive IterResult
  | next (submitted : Image)
  | terminated
  deriving DecidableEq

/-- One execution of the loop body: the capture call at detect.py line 109 is
wrapped in no try/except anywhere in run, so a raising capture propagates out
of the while loop and of run itself - nothing is logged, submitted or rendered
and the pipeline terminates; on success the mirrored frame is submitted and
the loop continues. -/
def loopIteration (c : CaptureOutcome) : IterResult :=
  match c with
  | CaptureOutcome.err => IterResult.terminated
  | CaptureOutcome.ok img => IterResult.next (loopFrames img).submitted

def continuesLoop : IterResult → Bool
  | IterResult.next _ => true
  | IterResult.terminated => false

/-- C7 (counterexample): on a transiently failing capture the pipeline does
not log and continue: the iteration terminates the loop. -/
theorem C7_counterexample :
    continuesLoop (loopIteration CaptureOutcome.err) = false ∧
    loopIteration CaptureOutcome.err = IterResult.terminated :=
  ⟨rfl, rfl⟩

/-- C7 (amended): there is no capture error handling in run: a failing
capture_array raises through the while loop and terminates the pipeline, with
nothing logged and nothing submitted or rendered for that tick; the loop
continues if and only if the capture succeeded, in which case the mirrored,
RGB-converted frame is submitted to inference. -/
theorem C7_capture_failure (c : CaptureOutcome) :
    continuesLoop (loopIteration c) =
      (match c with
       | CaptureOutcome.ok _ => true
       | CaptureOutcome.err => false) ∧
    (∀ img, c = CaptureOutcome.ok img →
      loopIteration c = IterResult.next (bgr2rgb (cvFlipH img))) ∧
    (c = CaptureOutcome.err → loopIteration c = IterResult.terminated) := by
  cases c with
  | ok img =>
    refine ⟨rfl, ?_, ?_⟩
    · intro img2 h
      cases h
      rfl
    · intro h
      cases h
  | err =>
    refine ⟨rfl, ?_, fun _ => rfl⟩
    intro img2 h
    cases h

/-- C7 (witness): the amended theorem evaluated at a concrete successful
capture and at the failing capture. -/
theorem C7_capture_failure_witness :
    continuesLoop (loopIteration (CaptureOutcome.ok [])) = true ∧
    loopIteration (CaptureOutcome.ok []) = IterResult.next (bgr2rgb (cvFlipH [])) ∧
    loopIteration CaptureOutcome.err = IterResult.terminated := by
  have hok := C7_capture_failure (CaptureOutcome.ok [])
  have herr := C7_capture_failure CaptureOutcome.err
  exact ⟨hok.1, hok.2.1 [] rfl, herr.2.2 rfl⟩

end Detect
